import Mathlib

/-!
Verification of the cinder static-compiler runtime pieces: the generic-type
instantiation cache (`Lib/compiler/static/type_env.py`) and the typed-slot /
patch-guard / dispatch-cache behavior exercised by
`Lib/test/test_compiler/test_static/patch.py`.

Python objects are identified by `Nat` identities; reference identity is
equality of identities.  Python dictionaries are association lists; the
mutable dict objects backing a `TypeEnvironment` live in an explicit `Heap`
addressed by references, so that dict aliasing (and the `.copy()` calls done
by `TypeEnvironment.__init__`) is observable.
-/

/-- A `Class` object, identified by its reference identity. -/
abbrev ClassId := Nat

/-- `GenericTypeIndex = Tuple["Class", ...]`: a tuple of concrete `Class` arguments. -/
abbrev GenericTypeIndex := List ClassId

/-- Python dict lookup (`d.get(k)`) on an association list: first matching key. -/
def dictGet {α β : Type} [DecidableEq α] : List (α × β) → α → Option β
  | [], _ => Option.none
  | (k, w) :: rest, key => if key = k then some w else dictGet rest key

/-- Python dict assignment (`d[k] = v`): overwrite the slot of an existing key
(keys are unique in a Python dict), else append a new entry. -/
def dictSet {α β : Type} [DecidableEq α] : List (α × β) → α → β → List (α × β)
  | [], key, v => [(key, v)]
  | (k, w) :: rest, key, v =>
      if key = k then (key, v) :: rest else (k, w) :: dictSet rest key v

/-- The store backing the mutable Python dict objects used by type
environments.  `innerDicts` maps a reference to the contents of one inner
instantiation dict; `nextRef` is the allocator for fresh dict objects;
`nextClass` is the allocator for fresh `Class` objects; `calls` logs every
invocation of the generic factory `make_generic_type`. -/
structure Heap where
  innerDicts : Nat → List (GenericTypeIndex × ClassId)
  nextRef : Nat
  nextClass : Nat
  calls : List (ClassId × GenericTypeIndex)

/-- Overwrite the inner dict stored at reference `ref`. -/
def Heap.setInner (h : Heap) (ref : Nat) (d : List (GenericTypeIndex × ClassId)) : Heap :=
  { h with innerDicts := fun r => if r = ref then d else h.innerDicts r }

/-- Allocate a fresh inner dict object holding `d`, returning its reference. -/
def Heap.allocInner (h : Heap) (d : List (GenericTypeIndex × ClassId)) : Nat × Heap :=
  (h.nextRef,
    { h with
      innerDicts := fun r => if r = h.nextRef then d else h.innerDicts r,
      nextRef := h.nextRef + 1 })

/-- `TypeEnvironment._generic_types`: the outer dict, mapping a generic
`Class` (by identity) to the reference of its inner instantiation dict. -/
structure TypeEnvironment where
  generic_types : List (ClassId × Nat)

/-- Modelled from the spec: `GenericClass.make_generic_type` lives in
`types.py`, which is not among the sources; the spec says the factory
"produces a new concrete Class".  It allocates a fresh `Class` object and is
logged in `Heap.calls`, so "invoked at most once" is observable. -/
def make_generic_type (generic_type : ClassId) (index : GenericTypeIndex) (h : Heap) :
    ClassId × Heap :=
  (h.nextClass,
    { h with nextClass := h.nextClass + 1, calls := h.calls ++ [(generic_type, index)] })

/-- `TypeEnvironment.get_generic_type`: look up the inner dict for
`generic_type`, registering a fresh empty one if absent; return the memoized
instantiation for `index` if present, else invoke the factory and memoize
its result in the (aliased) inner dict. -/
def get_generic_type (env : TypeEnvironment) (h : Heap) (generic_type : ClassId)
    (index : GenericTypeIndex) : ClassId × TypeEnvironment × Heap :=
  match dictGet env.generic_types generic_type with
  | some ref =>
      match dictGet (h.innerDicts ref) index with
      | some inst => (inst, env, h)
      | Option.none =>
          let p := make_generic_type generic_type index h
          (p.1, env, p.2.setInner ref (dictSet (p.2.innerDicts ref) index p.1))
  | Option.none =>
      let a := h.allocInner []
      let env2 : TypeEnvironment := ⟨dictSet env.generic_types generic_type a.1⟩
      let p := make_generic_type generic_type index a.2
      (p.1, env2, p.2.setInner a.1 (dictSet (p.2.innerDicts a.1) index p.1))

/-- `TypeEnvironment.__init__` with no `builtin_type_env`: starts empty. -/
def TypeEnvironment.empty : TypeEnvironment := ⟨[]⟩

/-- The dict comprehension in `TypeEnvironment.__init__`:
`{k: v.copy() for k, v in builtin_type_env._generic_types.items()}` — for
each entry, allocate a fresh inner dict object with the same contents. -/
def copyEntries : List (ClassId × Nat) → Heap → List (ClassId × Nat) × Heap
  | [], h => ([], h)
  | (k, ref) :: rest, h =>
      let a := h.allocInner (h.innerDicts ref)
      let q := copyEntries rest a.2
      ((k, a.1) :: q.1, q.2)

/-- `TypeEnvironment.__init__` with a `builtin_type_env` argument: copy the
outer mapping and, for every entry, copy the inner mapping as well. -/
def TypeEnvironment.branch (builtin_type_env : TypeEnvironment) (h : Heap) :
    TypeEnvironment × Heap :=
  let q := copyEntries builtin_type_env.generic_types h
  (⟨q.1⟩, q.2)

/-- The pure read portion of `get_generic_type`: what the environment
currently memoizes for `(generic_type, index)`, with no side effect. -/
def lookup_memo (env : TypeEnvironment) (h : Heap) (generic_type : ClassId)
    (index : GenericTypeIndex) : Option ClassId :=
  match dictGet env.generic_types generic_type with
  | some ref => dictGet (h.innerDicts ref) index
  | Option.none => Option.none

/-- Well-formedness: every inner-dict reference held by the environment is a
live (already allocated) heap reference. -/
def TypeEnvironment.wf (env : TypeEnvironment) (h : Heap) : Prop :=
  ∀ p ∈ env.generic_types, p.2 < h.nextRef

theorem dictGet_dictSet_self {α β : Type} [DecidableEq α] (d : List (α × β)) (k : α) (v : β) :
    dictGet (dictSet d k v) k = some v := by
  induction d with
  | nil => simp [dictGet, dictSet]
  | cons p rest ih =>
      obtain ⟨pk, pv⟩ := p
      by_cases hk : k = pk <;> simp [dictGet, dictSet, hk, ih]

theorem dictGet_dictSet_ne {α β : Type} [DecidableEq α] (d : List (α × β)) (k k2 : α) (v : β)
    (hne : k2 ≠ k) : dictGet (dictSet d k v) k2 = dictGet d k2 := by
  induction d with
  | nil => simp [dictGet, dictSet, hne]
  | cons p rest ih =>
      obtain ⟨pk, pv⟩ := p
      by_cases hk : k = pk
      · subst hk
        simp [dictGet, dictSet, hne]
      · by_cases hk2 : k2 = pk <;> simp [dictGet, dictSet, hk, hk2, ih]

theorem dictGet_mem {α β : Type} [DecidableEq α] (d : List (α × β)) (k : α) (v : β)
    (h : dictGet d k = some v) : (k, v) ∈ d := by
  induction d with
  | nil => simp [dictGet] at h
  | cons p rest ih =>
      obtain ⟨pk, pv⟩ := p
      by_cases hk : k = pk
      · subst hk
        simp [dictGet] at h
        simp [h]
      · simp [dictGet, hk] at h
        exact List.mem_cons_of_mem _ (ih h)

/-- C1: for every environment, generic type `g` and argument tuple `a`, a
second `get_generic_type g a` call performed on the state left by the first
returns exactly the first call's `Class` (same object identity) and leaves
environment and heap untouched; across the two calls the factory
`make_generic_type` is invoked at most once for `(g, a)` (the call log grows
by at most the one entry `(g, a)`). -/
theorem get_generic_type_memoized (env : TypeEnvironment) (h : Heap) (g : ClassId)
    (a : GenericTypeIndex) :
    get_generic_type (get_generic_type env h g a).2.1 (get_generic_type env h g a).2.2 g a
      = get_generic_type env h g a ∧
    ((get_generic_type env h g a).2.2.calls = h.calls ∨
      (get_generic_type env h g a).2.2.calls = h.calls ++ [(g, a)]) := by
  cases hg : dictGet env.generic_types g with
  | none =>
      constructor
      · simp only [get_generic_type, hg, Heap.allocInner, Heap.setInner, make_generic_type]
        simp [dictGet_dictSet_self]
      · simp [get_generic_type, hg, Heap.allocInner, Heap.setInner, make_generic_type]
  | some ref =>
      cases hi : dictGet (h.innerDicts ref) a with
      | some inst =>
          constructor
          · simp only [get_generic_type, hg, hi]
          · simp [get_generic_type, hg, hi]
      | none =>
          constructor
          · simp only [get_generic_type, hg, hi, Heap.setInner, make_generic_type]
            simp [get_generic_type, hg, dictGet_dictSet_self]
          · simp [get_generic_type, hg, hi, Heap.setInner, make_generic_type]

theorem copyEntries_nextRef (l : List (ClassId × Nat)) (h : Heap) :
    (copyEntries l h).2.nextRef = h.nextRef + l.length := by
  induction l generalizing h with
  | nil => simp [copyEntries]
  | cons p rest ih =>
      obtain ⟨pk, pref⟩ := p
      simp only [copyEntries, Heap.allocInner]
      rw [ih]
      simp
      omega

theorem copyEntries_preserve (l : List (ClassId × Nat)) (h : Heap) (r : Nat)
    (hr : r < h.nextRef) : (copyEntries l h).2.innerDicts r = h.innerDicts r := by
  induction l generalizing h with
  | nil => simp [copyEntries]
  | cons p rest ih =>
      obtain ⟨pk, pref⟩ := p
      simp only [copyEntries, Heap.allocInner]
      rw [ih _ (by simp; omega)]
      simp
      omega

theorem copyEntries_calls (l : List (ClassId × Nat)) (h : Heap) :
    (copyEntries l h).2.calls = h.calls := by
  induction l generalizing h with
  | nil => simp [copyEntries]
  | cons p rest ih =>
      obtain ⟨pk, pref⟩ := p
      simp only [copyEntries, Heap.allocInner]
      rw [ih]

theorem copyEntries_refs_ge (l : List (ClassId × Nat)) (h : Heap) :
    ∀ p ∈ (copyEntries l h).1, h.nextRef ≤ p.2 := by
  induction l generalizing h with
  | nil => simp [copyEntries]
  | cons p rest ih =>
      obtain ⟨pk, pref⟩ := p
      intro q hq
      simp only [copyEntries, Heap.allocInner, List.mem_cons] at hq
      rcases hq with hq | hq
      · simp [hq]
      · have := ih _ _ hq
        simp at this
        omega

theorem copyEntries_refs_lt (l : List (ClassId × Nat)) (h : Heap) :
    ∀ p ∈ (copyEntries l h).1, p.2 < (copyEntries l h).2.nextRef := by
  induction l generalizing h with
  | nil => simp [copyEntries]
  | cons p rest ih =>
      obtain ⟨pk, pref⟩ := p
      intro q hq
      simp only [copyEntries, Heap.allocInner, List.mem_cons] at hq ⊢
      have hnr := copyEntries_nextRef rest
        { h with
          innerDicts := fun r => if r = h.nextRef then h.innerDicts pref else h.innerDicts r,
          nextRef := h.nextRef + 1 }
      rcases hq with hq | hq
      · subst hq
        simp at hnr ⊢
        omega
      · exact ih _ _ hq

theorem copyEntries_lookup (l : List (ClassId × Nat)) (h : Heap)
    (hwf : ∀ p ∈ l, p.2 < h.nextRef) (g : ClassId) :
    (dictGet l g = Option.none → dictGet (copyEntries l h).1 g = Option.none) ∧
    (∀ r, dictGet l g = some r →
      ∃ r2, dictGet (copyEntries l h).1 g = some r2 ∧
        ((copyEntries l h).2).innerDicts r2 = h.innerDicts r) := by
  induction l generalizing h with
  | nil => simp [copyEntries, dictGet]
  | cons p rest ih =>
      obtain ⟨pk, pref⟩ := p
      by_cases hg : g = pk
      · subst hg
        constructor
        · intro hnone
          simp [dictGet] at hnone
        · intro r hr
          simp [dictGet] at hr
          subst hr
          refine ⟨h.nextRef, ?_, ?_⟩
          · simp [copyEntries, dictGet, Heap.allocInner]
          · simp only [copyEntries, Heap.allocInner]
            rw [copyEntries_preserve _ _ _ (by simp)]
            simp
      · have hwfr : ∀ q ∈ rest, q.2 <
            ({ h with
              innerDicts := fun r => if r = h.nextRef then h.innerDicts pref else h.innerDicts r,
              nextRef := h.nextRef + 1 } : Heap).nextRef := by
          intro q hq
          have := hwf q (List.mem_cons_of_mem _ hq)
          simp only []
          omega
        constructor
        · intro hnone
          simp [dictGet, hg] at hnone
          have := (ih _ hwfr).1 hnone
          simp only [copyEntries, Heap.allocInner, dictGet]
          simp [hg, this]
        · intro r hr
          simp [dictGet, hg] at hr
          obtain ⟨r2, hget, hinner⟩ := (ih _ hwfr).2 r hr
          refine ⟨r2, ?_, ?_⟩
          · simp only [copyEntries, Heap.allocInner, dictGet]
            simp [hg, hget]
          · simp only [copyEntries, Heap.allocInner] at hinner ⊢
            rw [hinner]
            have hrlt : r < h.nextRef := hwf _ (List.mem_cons_of_mem _ (dictGet_mem _ _ _ hr))
            simp
            omega

theorem get_generic_type_frame (env : TypeEnvironment) (h : Heap) (g : ClassId)
    (a : GenericTypeIndex) (r : Nat) (hr : r < h.nextRef)
    (hne : dictGet env.generic_types g ≠ some r) :
    ((get_generic_type env h g a).2.2).innerDicts r = h.innerDicts r := by
  cases hg : dictGet env.generic_types g with
  | some ref =>
      have hrne : r ≠ ref := fun hrr => hne (hrr ▸ hg)
      cases hi : dictGet (h.innerDicts ref) a with
      | some inst => simp [get_generic_type, hg, hi]
      | none => simp [get_generic_type, hg, hi, Heap.setInner, make_generic_type, hrne]
  | none =>
      have hrne : r ≠ h.nextRef := by omega
      simp [get_generic_type, hg, Heap.allocInner, Heap.setInner, make_generic_type, hrne]

theorem lookup_memo_congr (env : TypeEnvironment) (h1 h2 : Heap) (g : ClassId)
    (a : GenericTypeIndex)
    (hsame : ∀ r, dictGet env.generic_types g = some r → h2.innerDicts r = h1.innerDicts r) :
    lookup_memo env h2 g a = lookup_memo env h1 g a := by
  cases hg : dictGet env.generic_types g with
  | some ref => simp [lookup_memo, hg, hsame ref hg]
  | none => simp [lookup_memo, hg]

/-- C2: for a `TypeEnvironment` branched from a base environment, and any
argument tuple `a` not memoized in the base at branch time: branching copies
the outer mapping and each inner mapping (every lookup of the branch equals
the base lookup at branch time), a memoization write done through
`get_generic_type` on the branch is invisible to the base environment's
lookups, and a write done through the base is invisible to the branch's
lookups. -/
theorem branch_writes_isolated (B : TypeEnvironment) (h : Heap) (g : ClassId)
    (a : GenericTypeIndex) (hwf : B.wf h) (hmiss : lookup_memo B h g a = Option.none) :
    (∀ g2 a2, lookup_memo (B.branch h).1 (B.branch h).2 g2 a2 = lookup_memo B h g2 a2) ∧
    lookup_memo B (get_generic_type (B.branch h).1 (B.branch h).2 g a).2.2 g a
      = Option.none ∧
    lookup_memo (B.branch h).1 (get_generic_type B (B.branch h).2 g a).2.2 g a
      = Option.none := by
  have hwf2 : ∀ p ∈ B.generic_types, p.2 < h.nextRef := hwf
  have hcopy : ∀ g2 a2,
      lookup_memo (B.branch h).1 (B.branch h).2 g2 a2 = lookup_memo B h g2 a2 := by
    intro g2 a2
    cases hg2 : dictGet B.generic_types g2 with
    | none =>
        have hn := (copyEntries_lookup B.generic_types h hwf2 g2).1 hg2
        simp [lookup_memo, TypeEnvironment.branch, hn, hg2]
    | some r =>
        obtain ⟨r2, hget, hinner⟩ := (copyEntries_lookup B.generic_types h hwf2 g2).2 r hg2
        simp [lookup_memo, TypeEnvironment.branch, hget, hinner, hg2]
  refine ⟨hcopy, ?_, ?_⟩
  · have hstep1 : lookup_memo B (get_generic_type (B.branch h).1 (B.branch h).2 g a).2.2 g a
        = lookup_memo B (B.branch h).2 g a := by
      apply lookup_memo_congr
      intro r hr
      apply get_generic_type_frame
      · have hlt := hwf2 _ (dictGet_mem _ _ _ hr)
        have hnr := copyEntries_nextRef B.generic_types h
        show r < (copyEntries B.generic_types h).2.nextRef
        omega
      · intro hcontra
        have h1 := copyEntries_refs_ge B.generic_types h _ (dictGet_mem _ _ _ hcontra)
        have h2 := hwf2 _ (dictGet_mem _ _ _ hr)
        simp at h1
        omega
    have hstep2 : lookup_memo B (B.branch h).2 g a = lookup_memo B h g a := by
      apply lookup_memo_congr
      intro r hr
      exact copyEntries_preserve _ _ _ (hwf2 _ (dictGet_mem _ _ _ hr))
    rw [hstep1, hstep2, hmiss]
  · have hstep1 : lookup_memo (B.branch h).1 (get_generic_type B (B.branch h).2 g a).2.2 g a
        = lookup_memo (B.branch h).1 (B.branch h).2 g a := by
      apply lookup_memo_congr
      intro r2 hr2
      apply get_generic_type_frame
      · exact copyEntries_refs_lt B.generic_types h _ (dictGet_mem _ _ _ hr2)
      · intro hcontra
        have h1 := hwf2 _ (dictGet_mem _ _ _ hcontra)
        have h2 := copyEntries_refs_ge B.generic_types h _ (dictGet_mem _ _ _ hr2)
        simp at h2
        omega
    rw [hstep1, hcopy, hmiss]

/-- C10: branching copies the mappings but not the memoized `Class` objects:
for a pair `(g, a)` already memoized (to `c`) in the base at branch time,
`get_generic_type` on the base and on the branch both return the identical
`Class` object `c`, each leaving its environment and the heap unchanged —
in particular the factory is invoked in neither (the call log, unchanged by
branching, stays as it was). -/
theorem branch_shares_memoized (B : TypeEnvironment) (h : Heap) (g : ClassId)
    (a : GenericTypeIndex) (c : ClassId) (hwf : B.wf h)
    (hmem : lookup_memo B h g a = some c) :
    get_generic_type B (B.branch h).2 g a = (c, B, (B.branch h).2) ∧
    get_generic_type (B.branch h).1 (B.branch h).2 g a
      = (c, (B.branch h).1, (B.branch h).2) ∧
    ((B.branch h).2).calls = h.calls := by
  have hwf2 : ∀ p ∈ B.generic_types, p.2 < h.nextRef := hwf
  cases hg : dictGet B.generic_types g with
  | none => simp [lookup_memo, hg] at hmem
  | some ref =>
      have hi : dictGet (h.innerDicts ref) a = some c := by
        simpa [lookup_memo, hg] using hmem
      have href : ref < h.nextRef := hwf2 _ (dictGet_mem _ _ _ hg)
      refine ⟨?_, ?_, copyEntries_calls _ _⟩
      · have hpres : (B.branch h).2.innerDicts ref = h.innerDicts ref :=
          copyEntries_preserve _ _ _ href
        simp [get_generic_type, hg, hpres, hi]
      · obtain ⟨r2, hget, hinner⟩ := (copyEntries_lookup B.generic_types h hwf2 g).2 ref hg
        simp [get_generic_type, TypeEnvironment.branch, hget, hinner, hi]

/-- A concrete base environment for the witnesses: one generic type `7`
whose inner dict, stored at heap reference `0`, memoizes the argument tuple
`[3]` to the concrete class `9`. -/
def baseEnv : TypeEnvironment := ⟨[(7, 0)]⟩

/-- The heap backing `baseEnv`. -/
def baseHeap : Heap :=
  { innerDicts := fun r => if r = 0 then [([3], 9)] else [],
    nextRef := 1, nextClass := 10, calls := [] }

/-- The hypotheses of `branch_writes_isolated` hold for `baseEnv` and the
argument tuple `[4]` it has not memoized, and its conclusion follows. -/
theorem branch_writes_isolated_witness :
    ((∀ p ∈ baseEnv.generic_types, p.2 < baseHeap.nextRef) ∧
      lookup_memo baseEnv baseHeap 7 [4] = Option.none) ∧
    ((∀ g2 a2, lookup_memo (baseEnv.branch baseHeap).1 (baseEnv.branch baseHeap).2 g2 a2
        = lookup_memo baseEnv baseHeap g2 a2) ∧
      lookup_memo baseEnv
        (get_generic_type (baseEnv.branch baseHeap).1 (baseEnv.branch baseHeap).2 7 [4]).2.2
        7 [4] = Option.none ∧
      lookup_memo (baseEnv.branch baseHeap).1
        (get_generic_type baseEnv (baseEnv.branch baseHeap).2 7 [4]).2.2 7 [4]
        = Option.none) :=
  ⟨⟨by decide, by decide⟩,
    branch_writes_isolated baseEnv baseHeap 7 [4]
      (show ∀ p ∈ baseEnv.generic_types, p.2 < baseHeap.nextRef by decide) (by decide)⟩

/-- The hypotheses of `branch_shares_memoized` hold for `baseEnv` and the
pair it memoizes, and its conclusion follows. -/
theorem branch_shares_memoized_witness :
    ((∀ p ∈ baseEnv.generic_types, p.2 < baseHeap.nextRef) ∧
      lookup_memo baseEnv baseHeap 7 [3] = some 9) ∧
    (get_generic_type baseEnv (baseEnv.branch baseHeap).2 7 [3]
        = (9, baseEnv, (baseEnv.branch baseHeap).2) ∧
      get_generic_type (baseEnv.branch baseHeap).1 (baseEnv.branch baseHeap).2 7 [3]
        = (9, (baseEnv.branch baseHeap).1, (baseEnv.branch baseHeap).2) ∧
      ((baseEnv.branch baseHeap).2).calls = baseHeap.calls) :=
  ⟨⟨by decide, by decide⟩,
    branch_shares_memoized baseEnv baseHeap 7 [3] 9
      (show ∀ p ∈ baseEnv.generic_types, p.2 < baseHeap.nextRef by decide) (by decide)⟩

/-- Exception kinds observed by the patch tests (`TypeError`,
`OverflowError`, ...) plus the generic attribute error they are contrasted
with. -/
inductive ExcKind
  | typeError
  | overflowError
  | attributeError
  | indexError
  | otherExc (nm : String)
deriving DecidableEq

/-- A raised Python exception: its kind and its message. -/
structure PyExc where
  kind : ExcKind
  msg : String
deriving DecidableEq

/-- The Python values the patch tests exchange: `None`, arbitrary-precision
ints, bools, strings, tuples (kept opaque but for their arity), and
instances of user classes identified by class identity. -/
inductive PyVal
  | pynone
  | pyint (n : Int)
  | pybool (b : Bool)
  | pystr (s : String)
  | pytuple (arity : Nat)
  | pyobj (cls : Nat)
deriving DecidableEq

/-- Modelled from the spec: the `Class` descriptors are "owned by the
type-checking subsystem (external); referenced, never mutated" — the table
gives each class identity its name and its ancestor classes (itself
included), which is what the instance check with "subtypes accepted"
consults.  Identities 0..4 are the builtin classes `NoneType`, `int`,
`bool`, `str`, `tuple`. -/
structure ClassTable where
  className : Nat → String
  ancestors : Nat → List Nat

/-- The class identity of a value (builtins at fixed identities). -/
def PyVal.classId : PyVal → Nat
  | .pynone => 0
  | .pyint _ => 1
  | .pybool _ => 2
  | .pystr _ => 3
  | .pytuple _ => 4
  | .pyobj cls => cls

/-- The name of a value's type, as it appears in guard error messages. -/
def typeName (ct : ClassTable) (v : PyVal) : String :=
  ct.className v.classId

/-- The fixed-width primitive return kinds subject to range checking. -/
inductive PrimKind
  | cbool
  | int8
  | int16
  | int32
  | int64
  | uint8
  | uint16
  | uint32
  | uint64
deriving DecidableEq

/-- The primitive kind's name, as it appears in guard error messages. -/
def PrimKind.kindName : PrimKind → String
  | .cbool => "cbool"
  | .int8 => "int8"
  | .int16 => "int16"
  | .int32 => "int32"
  | .int64 => "int64"
  | .uint8 => "uint8"
  | .uint16 => "uint16"
  | .uint32 => "uint32"
  | .uint64 => "uint64"

/-- Smallest value fitting the declared width/signedness. -/
def PrimKind.minVal : PrimKind → Int
  | .cbool => 0
  | .int8 => -(2 ^ 7)
  | .int16 => -(2 ^ 15)
  | .int32 => -(2 ^ 31)
  | .int64 => -(2 ^ 63)
  | .uint8 => 0
  | .uint16 => 0
  | .uint32 => 0
  | .uint64 => 0

/-- Largest value fitting the declared width/signedness. -/
def PrimKind.maxVal : PrimKind → Int
  | .cbool => 1
  | .int8 => 2 ^ 7 - 1
  | .int16 => 2 ^ 15 - 1
  | .int32 => 2 ^ 31 - 1
  | .int64 => 2 ^ 63 - 1
  | .uint8 => 2 ^ 8 - 1
  | .uint16 => 2 ^ 16 - 1
  | .uint32 => 2 ^ 32 - 1
  | .uint64 => 2 ^ 64 - 1

/-- A slot's declared return type: "no value", an object type, or a
fixed-width primitive/boolean kind. -/
inductive RetType
  | noneType
  | objectType (cls : Nat)
  | primType (k : PrimKind)
deriving DecidableEq

/-- Boxing a produced result to an arbitrary-precision integer, when it is
integral (Python bools box to 0/1). -/
def PyVal.boxToInt : PyVal → Option Int
  | .pyint n => some n
  | .pybool b => some (if b then 1 else 0)
  | _ => Option.none

/-- The outcome of running a synchronous callable: a returned value or a
raised exception. -/
inductive SyncOutcome
  | ret (v : PyVal)
  | raise (e : PyExc)
deriving DecidableEq

/-- The result an invocation delivers to its caller. -/
inductive CallResult
  | ok (v : PyVal)
  | exn (e : PyExc)
deriving DecidableEq

/-- The type-contract error message, as asserted by
`test_patch_method_bad_ret` and `test_patch_method_ret_none_error`. -/
def typeMismatchMsg (declName expected actual : String) : String :=
  "unexpected return type from " ++ declName ++ ", expected " ++ expected
    ++ ", got " ++ actual

/-- The range-violation message, as asserted by
`test_patch_primitive_ret_type_overflow`. -/
def overflowMsg (declName kind : String) (n : Int) : String :=
  "unexpected return type from " ++ declName ++ ", expected " ++ kind
    ++ ", got out-of-range int (" ++ toString n ++ ")"

/-- Modelled from the spec: the Patch Guard's validation of a replacement's
produced result (§4.3; the guard itself is implemented in the runtime, not
among the sources).  A declared `None` return requires the absence marker; a
declared object type requires an instance of it, subtypes accepted; a
declared fixed-width primitive requires the result to box to an integer
fitting the declared width/signedness, else the distinct out-of-range
error.  Message shapes come from the tests in `patch.py`. -/
def guardValidate (ct : ClassTable) (declName : String) (ret : RetType) (v : PyVal) :
    CallResult :=
  match ret with
  | .noneType =>
      match v with
      | .pynone => .ok v
      | _ => .exn ⟨.typeError, typeMismatchMsg declName "NoneType" (typeName ct v)⟩
  | .objectType t =>
      if t ∈ ct.ancestors v.classId then .ok v
      else .exn ⟨.typeError, typeMismatchMsg declName (ct.className t) (typeName ct v)⟩
  | .primType k =>
      match v.boxToInt with
      | some n =>
          if k.minVal ≤ n ∧ n ≤ k.maxVal then .ok v
          else .exn ⟨.overflowError, overflowMsg declName k.kindName n⟩
      | Option.none =>
          .exn ⟨.typeError, typeMismatchMsg declName k.kindName (typeName ct v)⟩

/-- The eventual outcome of an awaitable returned by a replacement. -/
inductive AwaitOutcome
  | ret (v : PyVal)
  | raise (e : PyExc)
deriving DecidableEq

/-- Modelled from the spec (§4.3, §9): what a replacement produces when an
asynchronously-declared slot is invoked — an immediate value (an ordinary
synchronous callable), a raised exception, or an awaitable to be awaited
for its eventual outcome ({Immediate(value), Suspended(handle-to-await)}). -/
inductive AsyncReplOutcome
  | immediate (v : PyVal)
  | raise (e : PyExc)
  | suspended (r : AwaitOutcome)
deriving DecidableEq

/-- What driving an asynchronous call to completion observes at its first
resume (`coro.send(None)` in the tests): completion via `StopIteration`
carrying the result value, or an exception raised at that resume point. -/
inductive DriveResult
  | stopIteration (v : PyVal)
  | raised (e : PyExc)
deriving DecidableEq

/-- Modelled from the spec: the Patch Guard bridging of synchronous and
asynchronous return shapes for an asynchronously-declared slot (§4.3).  A
raised exception propagates unchanged to the resume point; an immediate
value is treated as the asynchronous result and validated, completing on
the first resume; an awaitable is awaited and its eventual outcome is
validated the same way (its exception propagating unchanged). -/
def guardAsyncDrive (ct : ClassTable) (declName : String) (ret : RetType)
    (o : AsyncReplOutcome) : DriveResult :=
  match o with
  | .raise e => .raised e
  | .immediate v =>
      match guardValidate ct declName ret v with
      | .ok w => .stopIteration w
      | .exn e => .raised e
  | .suspended (.raise e) => .raised e
  | .suspended (.ret v) =>
      match guardValidate ct declName ret v with
      | .ok w => .stopIteration w
      | .exn e => .raised e

/-- A key of an owning namespace: a simple identifier, or an unrelated
non-identifier key (the tests insert the key `42`). -/
inductive NsKey
  | ident (s : String)
  | nonIdent (n : Nat)
deriving DecidableEq

/-- A callable object, carrying its reference identity and what its body
does when invoked: return/raise an outcome, optionally after reassigning a
name in its owning namespace to another callable (the self-patching test). -/
inductive Callable
  | const (ident : Nat) (o : SyncOutcome)
  | selfRebind (ident : Nat) (nm : String) (next : Callable) (o : SyncOutcome)
deriving DecidableEq

/-- The reference identity of a callable. -/
def Callable.cid : Callable → Nat
  | .const i _ => i
  | .selfRebind i _ _ _ => i

/-- The callable identities a callable strongly references (itself, plus —
for a self-rebinding body — the callable it installs). -/
def Callable.refs : Callable → List Nat
  | .const i _ => [i]
  | .selfRebind i _ next _ => i :: next.refs

/-- A value bound in a namespace: a callable or plain data. -/
inductive NsVal
  | func (c : Callable)
  | data (v : PyVal)
deriving DecidableEq

/-- An owning namespace (module or class): its name and its bindings. -/
structure PyNamespace where
  nsname : String
  entries : List (NsKey × NsVal)
deriving DecidableEq

/-- Modelled from the spec: the compile-time declaration a call site was
compiled against — the declaring callable's qualified name (used in guard
error messages), the name of the slot in its owning namespace, the declared
return type, and the identity of the original compiled callable (the slot
is Direct exactly when it still holds that object). -/
structure SlotDecl where
  declName : String
  localName : String
  retType : RetType
  origId : Nat

/-- Modelled from the spec: a Dispatch Cache Entry is the call-site-local
handle addressing a Typed Slot by logical (namespace, name) pair; it is not
authoritative and holds no reference to any callable (§4.4, §9). -/
structure DispatchCacheEntry where
  namespaceName : String
  localName : String

/-- The callable identities a Dispatch Cache Entry strongly references:
none — it stores only the slot's logical address. -/
def DispatchCacheEntry.retainedIds (_ : DispatchCacheEntry) : List Nat := []

/-- The callable identities strongly referenced from a namespace's bindings. -/
def entriesRetainedIds : List (NsKey × NsVal) → List Nat
  | [] => []
  | (_, NsVal.func c) :: rest => c.refs ++ entriesRetainedIds rest
  | (_, NsVal.data _) :: rest => entriesRetainedIds rest

/-- The Typed Slot state machine's states (§4.2). -/
inductive SlotState
  | direct
  | guarded
  | unbound
deriving DecidableEq

/-- Modelled from the spec: the current state of the Typed Slot named by
`decl` — Direct while its namespace still binds the original compiled
callable, Guarded once the name is bound to anything else, Unbound once the
name has been removed (§4.2). -/
def slotState (decl : SlotDecl) (ns : PyNamespace) : SlotState :=
  match dictGet ns.entries (NsKey.ident decl.localName) with
  | Option.none => .unbound
  | some (NsVal.func c) => if c.cid = decl.origId then .direct else .guarded
  | some (NsVal.data _) => .guarded

/-- The unbound-target lookup failure, as asserted by
`test_patch_function_deleted_func`: a `TypeError` naming the missing name
and its owning namespace. -/
def classLoaderError (nsname localName : String) : PyExc :=
  ⟨.typeError,
    "bad name provided for class loader, '" ++ localName ++ "' doesn't exist in ('"
      ++ nsname ++ "', '" ++ localName ++ "')"⟩

/-- Modelled from the spec: the generic missing-attribute error that the
class-loader failure must be distinguishable from (§7). -/
def attributeNotFound (nsname localName : String) : PyExc :=
  ⟨.attributeError,
    "module '" ++ nsname ++ "' has no attribute '" ++ localName ++ "'"⟩

/-- Running a callable's body in its owning namespace: produce its outcome,
first performing the self-rebind when the body does one. -/
def execCallable (ns : PyNamespace) : Callable → SyncOutcome × PyNamespace
  | .const _ o => (o, ns)
  | .selfRebind _ nm next o =>
      (o, { ns with entries := dictSet ns.entries (NsKey.ident nm) (NsVal.func next) })

/-- Modelled from the spec: a compiled call site invoking through its
Dispatch Cache Entry (§2 control flow, §4.4): resolve the slot's current
binding in the owning namespace; raise the class-loader failure when the
name is Unbound; invoke the original directly (no wrapper, no validation)
when the slot is Direct; otherwise invoke the replacement through the Patch
Guard, which validates the produced result and propagates raised exceptions
unchanged. -/
def invokeThroughCache (ct : ClassTable) (cache : DispatchCacheEntry) (decl : SlotDecl)
    (ns : PyNamespace) : CallResult × PyNamespace :=
  match dictGet ns.entries (NsKey.ident cache.localName) with
  | Option.none => (.exn (classLoaderError ns.nsname cache.localName), ns)
  | some (NsVal.data _) => (.exn ⟨.typeError, "object is not callable"⟩, ns)
  | some (NsVal.func c) =>
      match execCallable ns c with
      | (o, ns2) =>
          if c.cid = decl.origId then
            match o with
            | .ret v => (.ok v, ns2)
            | .raise e => (.exn e, ns2)
          else
            match o with
            | .ret v => (guardValidate ct decl.declName decl.retType v, ns2)
            | .raise e => (.exn e, ns2)

/-- A concrete class table for the witnesses: builtins at 0..4, a user
class `C` at 5 and its subclass `D` at 6 (`bool` is a subclass of `int`). -/
def ct0 : ClassTable :=
  { className := fun c =>
      if c = 0 then "NoneType" else if c = 1 then "int" else if c = 2 then "bool"
      else if c = 3 then "str" else if c = 4 then "tuple" else if c = 5 then "C"
      else if c = 6 then "D" else "object",
    ancestors := fun c => if c = 2 then [2, 1] else if c = 6 then [6, 5] else [c] }

/-- C3: for a slot declared to return an object type `t` and patched (its
name bound to a replacement callable that is not the original), whose
replacement returns `v`: when `v` is not an instance of `t` the invocation
raises the contract-violation `TypeError` whose message names the declaring
callable, the expected type name and the actual type name; when `v` is an
instance of `t` or of a subtype (ancestor check), the invocation succeeds
and yields `v`. -/
theorem patched_object_ret (ct : ClassTable) (cache : DispatchCacheEntry)
    (decl : SlotDecl) (ns : PyNamespace) (t i : Nat) (v : PyVal)
    (hret : decl.retType = RetType.objectType t)
    (hbind : dictGet ns.entries (NsKey.ident cache.localName)
      = some (NsVal.func (Callable.const i (SyncOutcome.ret v))))
    (hpatched : i ≠ decl.origId) :
    (t ∉ ct.ancestors v.classId →
      (invokeThroughCache ct cache decl ns).1
        = CallResult.exn ⟨ExcKind.typeError,
            typeMismatchMsg decl.declName (ct.className t) (typeName ct v)⟩) ∧
    (t ∈ ct.ancestors v.classId →
      (invokeThroughCache ct cache decl ns).1 = CallResult.ok v) := by
  constructor
  · intro hnotin
    simp [invokeThroughCache, hbind, execCallable, Callable.cid, hpatched,
      guardValidate, hret, hnotin]
  · intro hin
    simp [invokeThroughCache, hbind, execCallable, Callable.cid, hpatched,
      guardValidate, hret, hin]

/-- At concrete inputs: a slot declared `-> int` patched with a replacement
returning the string `"abc"` fails with the message of
`test_patch_method_bad_ret`; a slot declared to return class `C` patched
with a replacement returning an instance of the subclass `D` succeeds. -/
theorem patched_object_ret_witness :
    (invokeThroughCache ct0 ⟨"mod", "f"⟩ ⟨"C.f", "f", RetType.objectType 1, 50⟩
        ⟨"mod", [(NsKey.ident "f",
          NsVal.func (Callable.const 60 (SyncOutcome.ret (PyVal.pystr "abc"))))]⟩).1
      = CallResult.exn ⟨ExcKind.typeError,
          "unexpected return type from C.f, expected int, got str"⟩ ∧
    (invokeThroughCache ct0 ⟨"mod", "f"⟩ ⟨"A.f", "f", RetType.objectType 5, 50⟩
        ⟨"mod", [(NsKey.ident "f",
          NsVal.func (Callable.const 61 (SyncOutcome.ret (PyVal.pyobj 6))))]⟩).1
      = CallResult.ok (PyVal.pyobj 6) :=
  ⟨((patched_object_ret ct0 ⟨"mod", "f"⟩ ⟨"C.f", "f", RetType.objectType 1, 50⟩
      ⟨"mod", [(NsKey.ident "f",
        NsVal.func (Callable.const 60 (SyncOutcome.ret (PyVal.pystr "abc"))))]⟩
      1 60 (PyVal.pystr "abc") rfl rfl (by decide)).1 (by decide)).trans (by decide),
    (patched_object_ret ct0 ⟨"mod", "f"⟩ ⟨"A.f", "f", RetType.objectType 5, 50⟩
      ⟨"mod", [(NsKey.ident "f",
        NsVal.func (Callable.const 61 (SyncOutcome.ret (PyVal.pyobj 6))))]⟩
      5 61 (PyVal.pyobj 6) rfl rfl (by decide)).2 (by decide)⟩

/-- C4: for a slot declared to return a fixed-width primitive kind `k`
(signed/unsigned 8/16/32/64-bit integers or boolean) and patched, whose
replacement returns the integer `n`: when `n` fits the declared
width/signedness the invocation succeeds and yields `n`; when it does not,
the invocation raises the range-violation `OverflowError` whose message
names the declaring callable, the expected kind, and the offending value. -/
theorem patched_prim_ret (ct : ClassTable) (cache : DispatchCacheEntry)
    (decl : SlotDecl) (ns : PyNamespace) (k : PrimKind) (i : Nat) (n : Int)
    (hret : decl.retType = RetType.primType k)
    (hbind : dictGet ns.entries (NsKey.ident cache.localName)
      = some (NsVal.func (Callable.const i (SyncOutcome.ret (PyVal.pyint n)))))
    (hpatched : i ≠ decl.origId) :
    (k.minVal ≤ n ∧ n ≤ k.maxVal →
      (invokeThroughCache ct cache decl ns).1 = CallResult.ok (PyVal.pyint n)) ∧
    (¬ (k.minVal ≤ n ∧ n ≤ k.maxVal) →
      (invokeThroughCache ct cache decl ns).1
        = CallResult.exn ⟨ExcKind.overflowError,
            overflowMsg decl.declName k.kindName n⟩) := by
  constructor <;> intro hcond <;>
    simp [invokeThroughCache, hbind, execCallable, Callable.cid, hpatched,
      guardValidate, hret, PyVal.boxToInt, hcond]

/-- At concrete inputs: a slot declared `-> uint8` patched with a
replacement returning `256` fails with the out-of-range message naming
`256`; the same slot with a replacement returning `255` succeeds. -/
theorem patched_prim_ret_witness :
    (invokeThroughCache ct0 ⟨"mod", "f"⟩ ⟨"C.f", "f", RetType.primType PrimKind.uint8, 50⟩
        ⟨"mod", [(NsKey.ident "f",
          NsVal.func (Callable.const 60 (SyncOutcome.ret (PyVal.pyint 256))))]⟩).1
      = CallResult.exn ⟨ExcKind.overflowError,
          "unexpected return type from C.f, expected uint8, got out-of-range int (256)"⟩ ∧
    (invokeThroughCache ct0 ⟨"mod", "f"⟩ ⟨"C.f", "f", RetType.primType PrimKind.uint8, 50⟩
        ⟨"mod", [(NsKey.ident "f",
          NsVal.func (Callable.const 60 (SyncOutcome.ret (PyVal.pyint 255))))]⟩).1
      = CallResult.ok (PyVal.pyint 255) :=
  ⟨((patched_prim_ret ct0 ⟨"mod", "f"⟩ ⟨"C.f", "f", RetType.primType PrimKind.uint8, 50⟩
      ⟨"mod", [(NsKey.ident "f",
        NsVal.func (Callable.const 60 (SyncOutcome.ret (PyVal.pyint 256))))]⟩
      PrimKind.uint8 60 256 rfl rfl (by decide)).2 (by decide)).trans (by decide),
    (patched_prim_ret ct0 ⟨"mod", "f"⟩ ⟨"C.f", "f", RetType.primType PrimKind.uint8, 50⟩
      ⟨"mod", [(NsKey.ident "f",
        NsVal.func (Callable.const 60 (SyncOutcome.ret (PyVal.pyint 255))))]⟩
      PrimKind.uint8 60 255 rfl rfl (by decide)).1 (by decide)⟩

/-- C5: for a slot declared to return `None` and patched, whose replacement
returns `v`: when `v` is the absence marker the invocation succeeds and
yields it; for any other `v` the invocation raises the contract-violation
`TypeError` naming the declaring callable, `NoneType`, and the actual
type. -/
theorem patched_none_ret (ct : ClassTable) (cache : DispatchCacheEntry)
    (decl : SlotDecl) (ns : PyNamespace) (i : Nat) (v : PyVal)
    (hret : decl.retType = RetType.noneType)
    (hbind : dictGet ns.entries (NsKey.ident cache.localName)
      = some (NsVal.func (Callable.const i (SyncOutcome.ret v))))
    (hpatched : i ≠ decl.origId) :
    (v = PyVal.pynone →
      (invokeThroughCache ct cache decl ns).1 = CallResult.ok PyVal.pynone) ∧
    (v ≠ PyVal.pynone →
      (invokeThroughCache ct cache decl ns).1
        = CallResult.exn ⟨ExcKind.typeError,
            typeMismatchMsg decl.declName "NoneType" (typeName ct v)⟩) := by
  constructor
  · intro hv
    subst hv
    simp [invokeThroughCache, hbind, execCallable, Callable.cid, hpatched,
      guardValidate, hret]
  · intro hv
    cases v <;>
      first
      | exact absurd rfl hv
      | simp [invokeThroughCache, hbind, execCallable, Callable.cid, hpatched,
          guardValidate, hret]

/-- At concrete inputs: a slot declared `-> None` patched with a
replacement returning a tuple fails with the message of
`test_patch_method_ret_none_error`; one whose replacement returns `None`
succeeds. -/
theorem patched_none_ret_witness :
    (invokeThroughCache ct0 ⟨"mod", "f"⟩ ⟨"C.f", "f", RetType.noneType, 50⟩
        ⟨"mod", [(NsKey.ident "f",
          NsVal.func (Callable.const 60 (SyncOutcome.ret (PyVal.pytuple 2))))]⟩).1
      = CallResult.exn ⟨ExcKind.typeError,
          "unexpected return type from C.f, expected NoneType, got tuple"⟩ ∧
    (invokeThroughCache ct0 ⟨"mod", "f"⟩ ⟨"C.f", "f", RetType.noneType, 50⟩
        ⟨"mod", [(NsKey.ident "f",
          NsVal.func (Callable.const 60 (SyncOutcome.ret PyVal.pynone)))]⟩).1
      = CallResult.ok PyVal.pynone :=
  ⟨((patched_none_ret ct0 ⟨"mod", "f"⟩ ⟨"C.f", "f", RetType.noneType, 50⟩
      ⟨"mod", [(NsKey.ident "f",
        NsVal.func (Callable.const 60 (SyncOutcome.ret (PyVal.pytuple 2))))]⟩
      60 (PyVal.pytuple 2) rfl rfl (by decide)).2 (by decide)).trans (by decide),
    (patched_none_ret ct0 ⟨"mod", "f"⟩ ⟨"C.f", "f", RetType.noneType, 50⟩
      ⟨"mod", [(NsKey.ident "f",
        NsVal.func (Callable.const 60 (SyncOutcome.ret PyVal.pynone)))]⟩
      60 PyVal.pynone rfl rfl (by decide)).1 rfl⟩

/-- C6: for an asynchronously-declared slot whose patched replacement is an
ordinary synchronous callable: a returned value passing the declared-type
validation completes the driven call on the first resume with that value
(no awaitable required of the replacement); a raised exception surfaces
unchanged at that resume point; a validation failure also surfaces there.
If the replacement instead returns an awaitable, the guard awaits it and
validates its eventual value, and an exception raised during that await
propagates unchanged. -/
theorem patched_async_bridge (ct : ClassTable) (declName : String) (ret : RetType) :
    (∀ v, guardValidate ct declName ret v = CallResult.ok v →
      guardAsyncDrive ct declName ret (AsyncReplOutcome.immediate v)
        = DriveResult.stopIteration v) ∧
    (∀ e, guardAsyncDrive ct declName ret (AsyncReplOutcome.raise e)
        = DriveResult.raised e) ∧
    (∀ v e2, guardValidate ct declName ret v = CallResult.exn e2 →
      guardAsyncDrive ct declName ret (AsyncReplOutcome.immediate v)
        = DriveResult.raised e2) ∧
    (∀ v, guardValidate ct declName ret v = CallResult.ok v →
      guardAsyncDrive ct declName ret (AsyncReplOutcome.suspended (AwaitOutcome.ret v))
        = DriveResult.stopIteration v) ∧
    (∀ e, guardAsyncDrive ct declName ret (AsyncReplOutcome.suspended (AwaitOutcome.raise e))
        = DriveResult.raised e) := by
  refine ⟨fun v hv => ?_, fun e => rfl, fun v e2 hv => ?_, fun v hv => ?_, fun e => rfl⟩
  · simp [guardAsyncDrive, hv]
  · simp [guardAsyncDrive, hv]
  · simp [guardAsyncDrive, hv]

/-- At concrete inputs, for a slot declared `async ... -> int`: a
synchronous replacement returning `100` completes the first resume with
`100` (as in `test_patch_async_function`); one raising `IndexError`
surfaces it at the resume (as in `test_patch_async_method_raising`); one
returning a non-int raises `TypeError` there (as in
`test_patch_async_method_incorrect_type`); a replacement returning an
awaitable with eventual value `100` also completes with `100` (as in
`test_patch_async_method_non_coroutine`). -/
theorem patched_async_bridge_witness :
    guardAsyncDrive ct0 "C.f" (RetType.objectType 1) (AsyncReplOutcome.immediate (PyVal.pyint 100))
      = DriveResult.stopIteration (PyVal.pyint 100) ∧
    guardAsyncDrive ct0 "C.f" (RetType.objectType 1)
        (AsyncReplOutcome.raise ⟨ExcKind.indexError, "failure!"⟩)
      = DriveResult.raised ⟨ExcKind.indexError, "failure!"⟩ ∧
    guardAsyncDrive ct0 "C.f" (RetType.objectType 1)
        (AsyncReplOutcome.immediate (PyVal.pystr "not an int"))
      = DriveResult.raised ⟨ExcKind.typeError,
          "unexpected return type from C.f, expected int, got str"⟩ ∧
    guardAsyncDrive ct0 "C.f" (RetType.objectType 1)
        (AsyncReplOutcome.suspended (AwaitOutcome.ret (PyVal.pyint 100)))
      = DriveResult.stopIteration (PyVal.pyint 100) :=
  ⟨(patched_async_bridge ct0 "C.f" (RetType.objectType 1)).1 (PyVal.pyint 100) (by decide),
    (patched_async_bridge ct0 "C.f" (RetType.objectType 1)).2.1
      ⟨ExcKind.indexError, "failure!"⟩,
    (patched_async_bridge ct0 "C.f" (RetType.objectType 1)).2.2.1
      (PyVal.pystr "not an int") _ (by decide),
    (patched_async_bridge ct0 "C.f" (RetType.objectType 1)).2.2.2.1
      (PyVal.pyint 100) (by decide)⟩

/-- C7: once the name backing a slot has been deleted from its owning
namespace, the slot is Unbound and every invocation through the (still
cached) Dispatch Cache Entry raises the class-loader lookup failure — a
`TypeError` whose message names the missing name and its owning namespace —
leaving the namespace unchanged (so every later invocation fails the same
way); and this error differs from the generic missing-attribute error. -/
theorem deleted_slot_unbound_error (ct : ClassTable) (cache : DispatchCacheEntry)
    (decl : SlotDecl) (ns : PyNamespace)
    (hname : decl.localName = cache.localName)
    (hdel : dictGet ns.entries (NsKey.ident cache.localName) = Option.none) :
    slotState decl ns = SlotState.unbound ∧
    invokeThroughCache ct cache decl ns
      = (CallResult.exn (classLoaderError ns.nsname cache.localName), ns) ∧
    (classLoaderError ns.nsname cache.localName).msg
      = "bad name provided for class loader, '" ++ cache.localName
        ++ "' doesn't exist in ('" ++ ns.nsname ++ "', '" ++ cache.localName ++ "')" ∧
    (classLoaderError ns.nsname cache.localName).kind = ExcKind.typeError ∧
    classLoaderError ns.nsname cache.localName
      ≠ attributeNotFound ns.nsname cache.localName := by
  refine ⟨?_, ?_, rfl, rfl, ?_⟩
  · simp [slotState, hname, hdel]
  · simp [invokeThroughCache, hdel]
  · intro hcontra
    have hk := congrArg PyExc.kind hcontra
    simp [classLoaderError, attributeNotFound] at hk

/-- At concrete inputs: in a module namespace from which `f` has been
deleted, invoking `f` through the cached entry raises the class-loader
`TypeError` of `test_patch_function_deleted_func`. -/
theorem deleted_slot_unbound_error_witness :
    slotState ⟨"f", "f", RetType.objectType 1, 50⟩ ⟨"mod", []⟩ = SlotState.unbound ∧
    invokeThroughCache ct0 ⟨"mod", "f"⟩ ⟨"f", "f", RetType.objectType 1, 50⟩ ⟨"mod", []⟩
      = (CallResult.exn (classLoaderError "mod" "f"), ⟨"mod", []⟩) ∧
    (classLoaderError "mod" "f").msg
      = "bad name provided for class loader, '" ++ "f"
        ++ "' doesn't exist in ('" ++ "mod" ++ "', '" ++ "f" ++ "')" ∧
    (classLoaderError "mod" "f").kind = ExcKind.typeError ∧
    classLoaderError "mod" "f" ≠ attributeNotFound "mod" "f" :=
  deleted_slot_unbound_error ct0 ⟨"mod", "f"⟩ ⟨"f", "f", RetType.objectType 1, 50⟩
    ⟨"mod", []⟩ rfl rfl

/-- C8: unrelated mutation of the owning namespace — insertion under a
non-identifier key — never changes what an invocation through the cached
entry delivers: the call result after the insertion equals the one before
it, for every binding state; in particular a patched slot still yields its
replacement's guard-validated result. -/
theorem cache_robust_unrelated_mutation (ct : ClassTable) (cache : DispatchCacheEntry)
    (decl : SlotDecl) (ns : PyNamespace) (j : Nat) (w : NsVal) :
    (invokeThroughCache ct cache decl
        { ns with entries := dictSet ns.entries (NsKey.nonIdent j) w }).1
      = (invokeThroughCache ct cache decl ns).1 ∧
    (∀ i v, dictGet ns.entries (NsKey.ident cache.localName)
        = some (NsVal.func (Callable.const i (SyncOutcome.ret v))) →
      i ≠ decl.origId →
      (invokeThroughCache ct cache decl
          { ns with entries := dictSet ns.entries (NsKey.nonIdent j) w }).1
        = guardValidate ct decl.declName decl.retType v) := by
  have hget : dictGet (dictSet ns.entries (NsKey.nonIdent j) w) (NsKey.ident cache.localName)
      = dictGet ns.entries (NsKey.ident cache.localName) :=
    dictGet_dictSet_ne _ _ _ _ (fun hcontra => NsKey.noConfusion hcontra)
  constructor
  · cases hb : dictGet ns.entries (NsKey.ident cache.localName) with
    | none => simp [invokeThroughCache, hget, hb]
    | some nv =>
        cases nv with
        | data v0 => simp [invokeThroughCache, hget, hb]
        | func c =>
            cases c with
            | const i o =>
                cases o <;> by_cases hi : i = decl.origId <;>
                  simp [invokeThroughCache, hget, hb, execCallable, Callable.cid, hi]
            | selfRebind i nm next o =>
                cases o <;> by_cases hi : i = decl.origId <;>
                  simp [invokeThroughCache, hget, hb, execCallable, Callable.cid, hi]
  · intro i v hb hi
    simp [invokeThroughCache, hget, hb, execCallable, Callable.cid, hi]

/-- At concrete inputs: after inserting the unwatchable key `42` into the
module namespace, a patched slot invoked through the cached entry still
yields the replacement's validated `100`, as in
`test_patch_function_unwatchable_dict`. -/
theorem cache_robust_unrelated_mutation_witness :
    (invokeThroughCache ct0 ⟨"mod", "f"⟩ ⟨"f", "f", RetType.objectType 1, 50⟩
        ⟨"mod", dictSet [(NsKey.ident "f",
            NsVal.func (Callable.const 60 (SyncOutcome.ret (PyVal.pyint 100))))]
          (NsKey.nonIdent 42) (NsVal.data (PyVal.pyint 1))⟩).1
      = CallResult.ok (PyVal.pyint 100) :=
  ((cache_robust_unrelated_mutation ct0 ⟨"mod", "f"⟩ ⟨"f", "f", RetType.objectType 1, 50⟩
      ⟨"mod", [(NsKey.ident "f",
        NsVal.func (Callable.const 60 (SyncOutcome.ret (PyVal.pyint 100))))]⟩
      42 (NsVal.data (PyVal.pyint 1))).2 60 (PyVal.pyint 100) rfl (by decide)).trans
    (by decide)

theorem dictGet_append_first {α β : Type} [DecidableEq α] (pre post : List (α × β))
    (k : α) (v : β) (hpre : ∀ p ∈ pre, p.1 ≠ k) :
    dictGet (pre ++ (k, v) :: post) k = some v := by
  induction pre with
  | nil => simp [dictGet]
  | cons p rest ih =>
      obtain ⟨pk, pv⟩ := p
      have hne : k ≠ pk := fun hh => hpre (pk, pv) (List.mem_cons_self _ _) hh.symm
      simp only [List.cons_append, dictGet, if_neg hne]
      exact ih (fun q hq => hpre q (List.mem_cons_of_mem _ hq))

theorem dictSet_append_first {α β : Type} [DecidableEq α] (pre post : List (α × β))
    (k : α) (v w : β) (hpre : ∀ p ∈ pre, p.1 ≠ k) :
    dictSet (pre ++ (k, v) :: post) k w = pre ++ (k, w) :: post := by
  induction pre with
  | nil => simp [dictSet]
  | cons p rest ih =>
      obtain ⟨pk, pv⟩ := p
      have hne : k ≠ pk := fun hh => hpre (pk, pv) (List.mem_cons_self _ _) hh.symm
      simp only [List.cons_append, dictSet, if_neg hne, List.cons.injEq, true_and]
      exact ih (fun q hq => hpre q (List.mem_cons_of_mem _ hq))

theorem mem_entriesRetainedIds (l : List (NsKey × NsVal)) (x : Nat)
    (hx : x ∈ entriesRetainedIds l) :
    ∃ p ∈ l, ∃ c, p.2 = NsVal.func c ∧ x ∈ c.refs := by
  induction l with
  | nil => simp [entriesRetainedIds] at hx
  | cons p rest ih =>
      obtain ⟨pk, pv⟩ := p
      cases pv with
      | data v0 =>
          simp only [entriesRetainedIds] at hx
          obtain ⟨q, hq, c, hc, hxc⟩ := ih hx
          exact ⟨q, List.mem_cons_of_mem _ hq, c, hc, hxc⟩
      | func c =>
          simp only [entriesRetainedIds, List.mem_append] at hx
          rcases hx with hx | hx
          · exact ⟨(pk, NsVal.func c), List.mem_cons_self _ _, c, rfl, hx⟩
          · obtain ⟨q, hq, c2, hc2, hxc⟩ := ih hx
            exact ⟨q, List.mem_cons_of_mem _ hq, c2, hc2, hxc⟩

/-- C9: a free function whose compiled body reassigns its own name to a
different callable during its own execution: the triggering call still
returns its own result; afterwards the slot holds the new callable (state
Guarded), every subsequent call through the cache observes the new
behavior (through the guard); and no reference to the original callable
remains in the namespace's bindings nor in the Dispatch Cache Entry (which
retains no callable at all), so with no external reference left the
original is reclaimable. -/
theorem self_patching_rebind (ct : ClassTable) (cache : DispatchCacheEntry)
    (decl : SlotDecl) (ns : PyNamespace) (pre post : List (NsKey × NsVal))
    (ix : Nat) (v w : PyVal)
    (hname : decl.localName = cache.localName)
    (hsplit : ns.entries = pre ++ (NsKey.ident cache.localName,
        NsVal.func (Callable.selfRebind decl.origId cache.localName
          (Callable.const ix (SyncOutcome.ret w)) (SyncOutcome.ret v))) :: post)
    (hpre : ∀ p ∈ pre, p.1 ≠ NsKey.ident cache.localName)
    (hix : ix ≠ decl.origId)
    (hpre2 : ∀ p ∈ pre, ∀ c2, p.2 = NsVal.func c2 → decl.origId ∉ c2.refs)
    (hpost2 : ∀ p ∈ post, ∀ c2, p.2 = NsVal.func c2 → decl.origId ∉ c2.refs) :
    (invokeThroughCache ct cache decl ns).1 = CallResult.ok v ∧
    (invokeThroughCache ct cache decl ns).2.entries
      = pre ++ (NsKey.ident cache.localName,
          NsVal.func (Callable.const ix (SyncOutcome.ret w))) :: post ∧
    slotState decl (invokeThroughCache ct cache decl ns).2 = SlotState.guarded ∧
    (invokeThroughCache ct cache decl (invokeThroughCache ct cache decl ns).2).1
      = guardValidate ct decl.declName decl.retType w ∧
    decl.origId ∉ entriesRetainedIds (invokeThroughCache ct cache decl ns).2.entries ∧
    DispatchCacheEntry.retainedIds cache = [] := by
  have hb : dictGet ns.entries (NsKey.ident cache.localName)
      = some (NsVal.func (Callable.selfRebind decl.origId cache.localName
          (Callable.const ix (SyncOutcome.ret w)) (SyncOutcome.ret v))) := by
    rw [hsplit]
    exact dictGet_append_first _ _ _ _ hpre
  have hset : dictSet ns.entries (NsKey.ident cache.localName)
        (NsVal.func (Callable.const ix (SyncOutcome.ret w)))
      = pre ++ (NsKey.ident cache.localName,
          NsVal.func (Callable.const ix (SyncOutcome.ret w))) :: post := by
    rw [hsplit]
    exact dictSet_append_first _ _ _ _ _ hpre
  have hinv : invokeThroughCache ct cache decl ns
      = (CallResult.ok v,
        { ns with entries := pre ++ (NsKey.ident cache.localName,
            NsVal.func (Callable.const ix (SyncOutcome.ret w))) :: post }) := by
    simp [invokeThroughCache, hb, execCallable, Callable.cid, hset]
  have hb2 : dictGet (pre ++ (NsKey.ident cache.localName,
        NsVal.func (Callable.const ix (SyncOutcome.ret w))) :: post)
        (NsKey.ident cache.localName)
      = some (NsVal.func (Callable.const ix (SyncOutcome.ret w))) :=
    dictGet_append_first _ _ _ _ hpre
  refine ⟨?_, ?_, ?_, ?_, ?_, rfl⟩
  · rw [hinv]
  · rw [hinv]
  · rw [hinv]
    simp [slotState, hname, hb2, Callable.cid, hix]
  · rw [hinv]
    simp [invokeThroughCache, hb2, execCallable, Callable.cid, hix]
  · rw [hinv]
    intro hmem
    obtain ⟨p, hp, c, hc, hxc⟩ := mem_entriesRetainedIds _ _ hmem
    rcases List.mem_append.mp hp with hp | hp
    · exact hpre2 p hp c hc hxc
    · rcases List.mem_cons.mp hp with hp | hp
      · subst hp
        simp only [NsVal.func.injEq] at hc
        subst hc
        simp [Callable.refs] at hxc
        exact hix hxc.symm
      · exact hpost2 p hp c hc hxc

/-- The namespace of the self-patching test: `f` (identity 50) rebinds its
own name to `x` (identity 60, returning `None`) while returning `42`. -/
def selfNs : PyNamespace :=
  ⟨"mod", [(NsKey.ident "f", NsVal.func (Callable.selfRebind 50 "f"
    (Callable.const 60 (SyncOutcome.ret PyVal.pynone)) (SyncOutcome.ret (PyVal.pyint 42))))]⟩

/-- At concrete inputs, replaying `test_self_patching_function`: the
triggering call returns `42`, the slot then holds the replacement, the
next call returns `None`, and the namespace no longer references callable
`50`. -/
theorem self_patching_rebind_witness :
    (invokeThroughCache ct0 ⟨"mod", "f"⟩ ⟨"f", "f", RetType.objectType 0, 50⟩ selfNs).1
      = CallResult.ok (PyVal.pyint 42) ∧
    (invokeThroughCache ct0 ⟨"mod", "f"⟩ ⟨"f", "f", RetType.objectType 0, 50⟩ selfNs).2.entries
      = [(NsKey.ident "f", NsVal.func (Callable.const 60 (SyncOutcome.ret PyVal.pynone)))] ∧
    slotState ⟨"f", "f", RetType.objectType 0, 50⟩
        (invokeThroughCache ct0 ⟨"mod", "f"⟩ ⟨"f", "f", RetType.objectType 0, 50⟩ selfNs).2
      = SlotState.guarded ∧
    (invokeThroughCache ct0 ⟨"mod", "f"⟩ ⟨"f", "f", RetType.objectType 0, 50⟩
        (invokeThroughCache ct0 ⟨"mod", "f"⟩ ⟨"f", "f", RetType.objectType 0, 50⟩ selfNs).2).1
      = CallResult.ok PyVal.pynone ∧
    (50 : Nat) ∉ entriesRetainedIds
      (invokeThroughCache ct0 ⟨"mod", "f"⟩ ⟨"f", "f", RetType.objectType 0, 50⟩ selfNs).2.entries ∧
    DispatchCacheEntry.retainedIds ⟨"mod", "f"⟩ = [] := by
  have T := self_patching_rebind ct0 ⟨"mod", "f"⟩ ⟨"f", "f", RetType.objectType 0, 50⟩
    selfNs [] [] 60 (PyVal.pyint 42) PyVal.pynone rfl rfl (by simp) (by decide)
    (by simp) (by simp)
  exact ⟨T.1, T.2.1, T.2.2.1, T.2.2.2.1.trans (by decide), T.2.2.2.2.1, rfl⟩
